import Mathlib

/-!
Shallow embedding of `thriftpy/thrift.py` (the runtime core of a Thrift-style
RPC/serialization framework) and proofs about its specification claims.

The embedding follows the Python source closely:
  * `TPayloadMeta._class_cache` / `__call__` / `__instancecheck__` become an
    explicit registry state (`Registry`) with a synthesis step (`synthesize`)
    and a canonicalized instance-of check (`instancecheck`);
  * payload instances are modelled by their attribute dictionary — an
    insertion-ordered association list, matching CPython dict semantics;
  * the client (`TClient._send` / `_recv`) and the processors
    (`TProcessor.process`, `TMultiplexedProcessor.process_in`) are modelled
    as pure functions that also emit the trace of protocol/transport events
    they perform, in order;
  * Python truthiness is modelled on a small value universe `PyVal`.
-/

namespace ThriftPy

/-- Python values as they appear in payload dictionaries.  `vexc cls objId`
is an exception instance of class `cls` with CPython identity `objId`
(string quoting in `repr` is elided — values render by content). -/
inductive PyVal : Type
  | vnone : PyVal
  | vint (n : Int) : PyVal
  | vstr (s : String) : PyVal
  | vexc (cls : String) (objId : Nat) : PyVal
  deriving DecidableEq, Repr

/-- Python truthiness: `None` is falsy, numbers are falsy iff zero, strings
iff empty; exception instances are always truthy (no `__bool__` override on
`TException`). -/
def truthy : PyVal → Bool
  | PyVal.vnone => false
  | PyVal.vint n => !(n == 0)
  | PyVal.vstr s => !(s == "")
  | PyVal.vexc _ _ => true

/-- Values that can legally populate a field of a decoded result struct
other than `success`: unset (`None`) or a decoded exception instance
(`TException` has no `__bool__`, so exception instances are truthy). -/
def isExcOrNone : PyVal → Bool
  | PyVal.vnone => true
  | PyVal.vexc _ _ => true
  | _ => false

/-! Message kinds, from `class TMessageType`. -/
namespace TMessageType

def CALL : Nat := 1

def REPLY : Nat := 2

def EXCEPTION : Nat := 3

def ONEWAY : Nat := 4

end TMessageType

/-! Application-level exception codes, from `class TApplicationException`. -/
namespace TApplicationException

def UNKNOWN : Nat := 0

def UNKNOWN_METHOD : Nat := 1

def INVALID_MESSAGE_TYPE : Nat := 2

def WRONG_METHOD_NAME : Nat := 3

def BAD_SEQUENCE_ID : Nat := 4

def MISSING_RESULT : Nat := 5

def INTERNAL_ERROR : Nat := 6

def PROTOCOL_ERROR : Nat := 7

end TApplicationException

/-! ## The structural-type registry (`TPayloadMeta`)

`TPayloadMeta._class_cache` maps a `"module:name"` key to the canonical
replacement class built on first instantiation of a `TSPayload`-derived
class (`TPayloadMeta.__call__`, lines 163–189).  Classes are modelled by
numeric identities (CPython object identity); `keyOf` records the
`"module:name"` key of every registry-created class (the replacement class
is created with `__module__ = cls.__module__` and name `cls_name`, so its
key equals the cache key it is stored under). -/
structure Registry : Type where
  cache : List (String × Nat)
  keyOf : List (Nat × String)
  next : Nat
  deriving Repr

def Registry.empty : Registry := ⟨[], [], 0⟩

/-- Model of `TPayloadMeta.__call__` on a `TSPayload`-derived class, viewed as the
synthesis request for the canonical type under `cache_key`: on a cache miss
a fresh class is built and recorded, on a hit the recorded class is
returned and the newly supplied specs are ignored. -/
def synthesize (r : Registry) (key : String) : Registry × Nat :=
  match r.cache.lookup key with
  | some cls_obj => (r, cls_obj)
  | none =>
      (⟨(key, r.next) :: r.cache, (r.next, key) :: r.keyOf, r.next + 1⟩, r.next)

/-- Model of `TPayloadMeta.__instancecheck__`: the key is computed from the
*instance's* class (`inst.__class__.__module__ : __name__`); if the cache
holds a replacement class for that key the check is `inst.__class__ is
repl_cls`, otherwise it falls back to the nominal `type.__instancecheck__`
(passed in as `fallback`).  `cls` — the class being checked against — is
unused on the cache-hit path, exactly as in the source. -/
def instancecheck (r : Registry) (cls : Nat) (instCls : Nat)
    (fallback : Bool) : Bool :=
  match r.keyOf.lookup instCls with
  | none => fallback
  | some key =>
    match r.cache.lookup key with
    | none => fallback
    | some repl_cls => instCls == repl_cls

/-- Registry well-formedness: every cached class was created by the registry
under the key it is cached at, and class identities are below the
allocation counter.  Holds for the empty registry and is preserved by
`synthesize`. -/
def RegistryWF (r : Registry) : Prop :=
  (∀ k c, r.cache.lookup k = some c → r.keyOf.lookup c = some k) ∧
  (∀ p ∈ r.keyOf, p.1 < r.next) ∧
  (∀ p ∈ r.cache, p.2 < r.next)

/-! ## Payload instances and their attribute dictionaries

A `TPayload` instance is its `__dict__`: an insertion-ordered association
list from attribute name to value (CPython dicts preserve insertion order
and have no duplicate keys). -/

/-- Python `setattr(obj, k, v)`: overwrite in place if the key exists, else append
(insertion order of a CPython dict). -/
def setattr (d : List (String × PyVal)) (k : String) (v : PyVal) :
    List (String × PyVal) :=
  match d with
  | [] => [(k, v)]
  | (k2, v2) :: rest =>
      if k2 == k then (k, v) :: rest else (k2, v2) :: setattr rest k v

/-- CPython `dict.__eq__`: same key set, equal value per key (order
insensitive).  The length test plus one-sided containment is equivalent for
duplicate-free dictionaries. -/
def dictEq (d1 d2 : List (String × PyVal)) : Bool :=
  d1.length == d2.length && d1.all (fun p => d2.lookup p.1 == some p.2)

/-- Python `hasattr(obj, k)` on an open-storage instance. -/
def hasattr (d : List (String × PyVal)) (k : String) : Bool :=
  (d.lookup k).isSome

/-- Python `repr` of a stored value (string quoting elided). -/
def reprVal : PyVal → String
  | PyVal.vnone => "None"
  | PyVal.vint n => toString n
  | PyVal.vstr s => s
  | PyVal.vexc cls objId => cls ++ "(" ++ toString objId ++ ")"

/-- The `'k=v'` items of `TPayload.__repr__`, built from
`self.__dict__.items()` in insertion order. -/
def repr_items (d : List (String × PyVal)) : List String :=
  d.map (fun p => p.1 ++ "=" ++ reprVal p.2)

/-- Model of `TPayload.__repr__` (lines 211–213): class name plus all `__dict__`
items, comma separated. -/
def TPayload_repr (clsName : String) (d : List (String × PyVal)) : String :=
  clsName ++ "(" ++ String.intercalate ", " (repr_items d) ++ ")"

/-- An open-storage (`TPayload`) instance: its class identity and its full
attribute dictionary. -/
structure TPayloadInst : Type where
  cls : Nat
  dict : List (String × PyVal)
  deriving Repr

/-- Model of `TPayload.__eq__` (lines 218–220): `isinstance(other, self.__class__)
and self.__dict__ == other.__dict__`.  The instance check goes through
`TPayloadMeta.__instancecheck__`; the nominal `type.__instancecheck__`
fallback is class identity (the generated payload classes have no proper
subclasses). -/
def TPayload_eq (r : Registry) (self other : TPayloadInst) : Bool :=
  instancecheck r self.cls other.cls (other.cls == self.cls) &&
    dictEq self.dict other.dict

/-! ## Protocol/transport events

Each client/processor operation is modelled together with the ordered
trace of abstract protocol-boundary events it performs
(`read_message_begin`, `write_struct`, `trans.flush`, ...). -/

inductive IOEvent : Type
  | readMsgBegin
  | readStruct
  | readMsgEnd
  | skipStruct
  | writeMsgBegin (api : String) (mtype : Nat) (seqid : Nat)
  | writeStruct
  | writeMsgEnd
  | flush
  | callHandler (api : String)
  deriving DecidableEq, Repr

/-- Events that consume data from the input protocol. -/
def isReadEvent : IOEvent → Bool
  | IOEvent.readMsgBegin => true
  | IOEvent.readStruct => true
  | IOEvent.readMsgEnd => true
  | _ => false

/-- Events that emit data on the output protocol/transport. -/
def isWriteEvent : IOEvent → Bool
  | IOEvent.writeMsgBegin _ _ _ => true
  | IOEvent.writeStruct => true
  | IOEvent.writeMsgEnd => true
  | IOEvent.flush => true
  | _ => false

/-! ## The RPC client (`TClient`) -/

/-- Client state: `self._seqid`, set to `0` in `TClient.__init__` (line
283).  No method of the class ever assigns it again. -/
structure TClient : Type where
  _seqid : Nat
  deriving Repr

def TClient.init : TClient := ⟨0⟩

/-- Model of `TClient._send` (lines 306–313): writes
`write_message_begin(api, CALL, self._seqid)`, the args struct, the message
end, and flushes.  Returns the (unchanged) client state and the message
header that went on the wire. -/
def TClient_send (c : TClient) (api : String) :
    TClient × (String × Nat × Nat) :=
  (c, (api, TMessageType.CALL, c._seqid))

/-- The sequence ids carried by the headers of `n` successive `_send`
calls issued through one client. -/
def sentSeqids (api : String) (c : TClient) : Nat → List Nat
  | 0 => []
  | Nat.succ n =>
      let p := TClient_send c api
      p.2.2.2 :: sentSeqids api p.1 n

/-- Trace of `TClient._send`. -/
def sendTrace (api : String) (seqid : Nat) : List IOEvent :=
  [IOEvent.writeMsgBegin api TMessageType.CALL seqid, IOEvent.writeStruct,
   IOEvent.writeMsgEnd, IOEvent.flush]

/-- Trace of `TClient._recv`: both the EXCEPTION branch and the result
branch read one message header, one struct, and the message end. -/
def recvTrace : List IOEvent :=
  [IOEvent.readMsgBegin, IOEvent.readStruct, IOEvent.readMsgEnd]

/-- Trace of `TClient._req` (lines 295–304): send, then wait for a result
only if the method is not oneway. -/
def TClient_req_trace (api : String) (seqid : Nat) (oneway : Bool) :
    List IOEvent :=
  sendTrace api seqid ++ (if oneway then [] else recvTrace)

/-! ## Client receive (`TClient._recv`) -/

/-- A decoded `_result` struct on the client side: its `thrift_spec`
(field id and field name) and its `__dict__` in insertion order (the
generated `__init__` assigns the fields in `default_spec` order, i.e.
declaration order). -/
structure ResultStruct : Type where
  thrift_spec : List (Nat × String)
  dict : List (String × PyVal)
  deriving Repr

/-- The test `hasattr(result, "success") and result.success is not None`. -/
def successIsSet (d : List (String × PyVal)) : Bool :=
  match d.lookup "success" with
  | some v => !(v == PyVal.vnone)
  | none => false

/-- The throws scan of `_recv` (lines 334–336): first `(k, v)` of
`result.__dict__.items()` with `k != "success"` and `v` truthy. -/
def firstThrow : List (String × PyVal) → Option PyVal
  | [] => none
  | (k, v) :: rest =>
      if !(k == "success") && truthy v then some v else firstThrow rest

inductive RecvOutcome : Type
  | raisedWire (excType : Nat)
  | returned (v : PyVal)
  | returnedNone
  | raisedThrow (v : PyVal)
  | raisedApp (excType : Nat)
  deriving DecidableEq, Repr

/-- Model of `TClient._recv` (lines 315–340).  `mtype` is the received message
kind; `wireExcType` the code of the decoded `TApplicationException` in
the EXCEPTION branch. -/
def TClient_recv (mtype : Nat) (wireExcType : Nat) (result : ResultStruct) :
    RecvOutcome :=
  if mtype == TMessageType.EXCEPTION then RecvOutcome.raisedWire wireExcType
  else if successIsSet result.dict then
    RecvOutcome.returned ((result.dict.lookup "success").getD PyVal.vnone)
  else if result.thrift_spec.length == 0 then RecvOutcome.returnedNone
  else
    match firstThrow result.dict with
    | some v => RecvOutcome.raisedThrow v
    | none =>
        if hasattr result.dict "success" then
          RecvOutcome.raisedApp TApplicationException.MISSING_RESULT
        else RecvOutcome.returnedNone

/-! ## The server processor (`TProcessor`) -/

/-- A raised Python exception: its class, its method-resolution-order
class list (for `isinstance`), and its identity. -/
structure ExcVal : Type where
  cls : String
  mro : List String
  objId : Nat
  deriving DecidableEq, Repr

/-- What the handler does when invoked: return a value or raise. -/
inductive HandlerOutcome : Type
  | ok (v : PyVal)
  | exn (e : ExcVal)
  deriving Repr

/-- A server-side `_result` struct: `thrift_spec` maps field id to
(field name, declared exception class name); `oneway` is the class
attribute checked by `process`; `dict` is the instance `__dict__`. -/
structure ProcResult : Type where
  thrift_spec : List (Nat × String × String)
  oneway : Bool
  dict : List (String × PyVal)
  deriving Repr

/-- Python `sorted(result.thrift_spec)`: the spec entries in ascending field-id
order. -/
def sortSpec (l : List (Nat × String × String)) :
    List (Nat × String × String) :=
  List.insertionSort (fun a b => a.1 ≤ b.1) l

/-- The scan loop of `TProcessor.handle_exception` over the sorted spec:
skip `success`, set the first field whose declared exception class matches
`isinstance(e, exc_cls)` (i.e. `exc_cls` occurs in `e`'s mro) and stop;
if the loop completes, re-raise (`none`). -/
def handle_exception_scan (e : ExcVal) (result : ProcResult) :
    List (Nat × String × String) → Option ProcResult
  | [] => none
  | f :: rest =>
      if f.2.1 == "success" then handle_exception_scan e result rest
      else if e.mro.contains f.2.2 then
        some { result with
               dict := setattr result.dict f.2.1 (PyVal.vexc e.cls e.objId) }
      else handle_exception_scan e result rest

/-- Model of `TProcessor.handle_exception` (lines 388–398). -/
def handle_exception (e : ExcVal) (result : ProcResult) : Option ProcResult :=
  handle_exception_scan e result (sortSpec result.thrift_spec)

inductive ProcessOutcome : Type
  | sentException (api : String) (excType : Nat) (seqid : Nat)
  | sentReply (api : String) (result : ProcResult) (seqid : Nat)
  | onewayDone (result : ProcResult)
  | uncaught (e : ExcVal)
  deriving Repr

/-- Trace of `TProcessor.send_exception`. -/
def sendExcTrace (api : String) (seqid : Nat) : List IOEvent :=
  [IOEvent.writeMsgBegin api TMessageType.EXCEPTION seqid,
   IOEvent.writeStruct, IOEvent.writeMsgEnd, IOEvent.flush]

/-- Trace of `TProcessor.send_result`. -/
def sendResultTrace (api : String) (seqid : Nat) : List IOEvent :=
  [IOEvent.writeMsgBegin api TMessageType.REPLY seqid,
   IOEvent.writeStruct, IOEvent.writeMsgEnd, IOEvent.flush]

/-- Model of `TProcessor.process` together with `process_in` (lines 355–374 and
400–413), for one incoming request `(api, seqid)`.  `services` is
`self._service.thrift_services`; `result` the freshly constructed result
struct; `handler` the behaviour of `getattr(self._handler, api)` when
called.  Produces the event trace and the outcome. -/
def TProcessor_process (services : List String) (api : String) (seqid : Nat)
    (result : ProcResult) (handler : HandlerOutcome) :
    List IOEvent × ProcessOutcome :=
  if !(services.contains api) then
    ([IOEvent.readMsgBegin, IOEvent.skipStruct, IOEvent.readMsgEnd] ++
       sendExcTrace api seqid,
     ProcessOutcome.sentException api TApplicationException.UNKNOWN_METHOD
       seqid)
  else
    let inTrace : List IOEvent :=
      [IOEvent.readMsgBegin, IOEvent.readStruct, IOEvent.readMsgEnd,
       IOEvent.callHandler api]
    match handler with
    | HandlerOutcome.ok v =>
        let result2 :=
          { result with dict := setattr result.dict "success" v }
        if result2.oneway then (inTrace, ProcessOutcome.onewayDone result2)
        else (inTrace ++ sendResultTrace api seqid,
              ProcessOutcome.sentReply api result2 seqid)
    | HandlerOutcome.exn e =>
        match handle_exception e result with
        | some result2 =>
            if result2.oneway then
              (inTrace, ProcessOutcome.onewayDone result2)
            else (inTrace ++ sendResultTrace api seqid,
                  ProcessOutcome.sentReply api result2 seqid)
        | none => (inTrace, ProcessOutcome.uncaught e)

/-! ## The multiplexed processor (`TMultiplexedProcessor`) -/

namespace TMultiplexedProcessor

def SEPARATOR : String := ":"

end TMultiplexedProcessor

inductive MuxOutcome : Type
  | raised (message : String)
  | unknownService (api : String) (seqid : Nat)
  | dispatched (service_name : String) (api : String) (seqid : Nat)
  deriving DecidableEq, Repr

/-- Python `SEPARATOR in api`: the one-character separator `":"` occurs
among the characters of `api`. -/
def containsSep (api : String) : Bool :=
  api.toList.contains ':'

/-- Model of `TMultiplexedProcessor.process_in` (lines 430–458) up to the point of
dispatching to the registered processor.  `processors` is the set of
registered service names.  A raised `TException` (or the unpacking error
of `api.split`) aborts before anything is written. -/
def TMultiplexedProcessor_process_in (processors : List String)
    (api : String) (type : Nat) (seqid : Nat) : List IOEvent × MuxOutcome :=
  if !(type == TMessageType.CALL || type == TMessageType.ONEWAY) then
    ([IOEvent.readMsgBegin],
     MuxOutcome.raised "TMultiplex protocol only supports CALL & ONEWAY")
  else if !(containsSep api) then
    ([IOEvent.readMsgBegin],
     MuxOutcome.raised
       "Service name not found in message. You should use TMultiplexedProtocol in client.")
  else
    match api.splitOn TMultiplexedProcessor.SEPARATOR with
    | [service_name, api2] =>
        if !(processors.contains service_name) then
          ([IOEvent.readMsgBegin, IOEvent.skipStruct, IOEvent.readMsgEnd],
           MuxOutcome.unknownService api2 seqid)
        else
          ([IOEvent.readMsgBegin, IOEvent.readStruct, IOEvent.readMsgEnd],
           MuxOutcome.dispatched service_name api2 seqid)
    | _ =>
        ([IOEvent.readMsgBegin],
         MuxOutcome.raised "ValueError: unpacking mismatch in api.split")

/-! ## Thrift exceptions (`TException`, `TApplicationException`) -/

/-- An exception-typed payload instance: CPython identity plus its
attribute dictionary. -/
structure TExceptionInst : Type where
  objId : Nat
  dict : List (String × PyVal)
  deriving DecidableEq, Repr

/-- Model of `TException.__eq__` (lines 479–480): `id(self) == id(other)`. -/
def TException_eq (self other : TExceptionInst) : Bool :=
  self.objId == other.objId

/-- Model of `TException.__hash__` (lines 476–477): `id(self)`. -/
def TException_hash (self : TExceptionInst) : Nat := self.objId

/-- Model of `TApplicationException.__init__` (lines 517–520): assigns `self.type`
then `self.message`. -/
def TApplicationException_init (objId : Nat) (type : Nat) (message : PyVal) :
    TExceptionInst :=
  ⟨objId, [("type", PyVal.vint (Int.ofNat type)), ("message", message)]⟩

/-! ## Helper lemmas -/

theorem lookup_cons_ne {α β : Type} [BEq α] [LawfulBEq α] {k k2 : α} (v : β)
    (l : List (α × β)) (h : ¬ k = k2) :
    List.lookup k ((k2, v) :: l) = List.lookup k l := by
  rw [List.lookup_cons]
  have : (k == k2) = false := beq_false_of_ne h
  rw [this]

theorem mem_of_lookup {α β : Type} [BEq α] [LawfulBEq α] {k : α} {v : β}
    {l : List (α × β)} (h : l.lookup k = some v) : (k, v) ∈ l := by
  induction l with
  | nil => simp at h
  | cons p rest ih =>
      obtain ⟨pk, pv⟩ := p
      rw [List.lookup_cons] at h
      cases hk : k == pk with
      | true =>
          rw [hk] at h
          cases h
          have : k = pk := by exact eq_of_beq hk
          subst this
          exact List.mem_cons_self _ _
      | false =>
          rw [hk] at h
          exact List.mem_cons_of_mem _ (ih h)

theorem registryWF_empty : RegistryWF Registry.empty := by
  refine ⟨?_, ?_, ?_⟩ <;> simp [Registry.empty]

theorem registryWF_synthesize (r : Registry) (key : String)
    (h : RegistryWF r) : RegistryWF (synthesize r key).1 := by
  obtain ⟨h1, h2, h3⟩ := h
  cases hc : r.cache.lookup key with
  | some c =>
      simp only [RegistryWF, synthesize, hc]
      exact ⟨h1, h2, h3⟩
  | none =>
      simp only [RegistryWF, synthesize, hc]
      refine ⟨?_, ?_, ?_⟩
      · intro k c hkc
        by_cases hk : k = key
        · subst hk
          rw [List.lookup_cons_self] at hkc
          cases hkc
          exact List.lookup_cons_self
        · rw [lookup_cons_ne _ _ hk] at hkc
          have hmem := h1 k c hkc
          have hlt := h3 ⟨k, c⟩ (mem_of_lookup hkc)
          have hcn : ¬ c = r.next := by omega
          rw [lookup_cons_ne _ _ hcn]
          exact hmem
      · intro p hp
        rcases List.mem_cons.mp hp with h | h
        · subst h; simp
        · have := h2 p h; omega
      · intro p hp
        rcases List.mem_cons.mp hp with h | h
        · subst h; simp
        · have := h3 p h; omega

theorem lookup_eq_none_of_not_mem {α β : Type} [BEq α] [LawfulBEq α] {k : α}
    {l : List (α × β)} (h : k ∉ l.map Prod.fst) : l.lookup k = none := by
  induction l with
  | nil => rfl
  | cons p rest ih =>
      obtain ⟨pk, pv⟩ := p
      simp only [List.map_cons, List.mem_cons] at h
      push_neg at h
      rw [lookup_cons_ne _ _ h.1]
      exact ih h.2

/-- Applying `setattr` with a key that is not yet an attribute appends to the
dictionary (CPython dict insertion order). -/
theorem setattr_fresh (d : List (String × PyVal)) (k : String) (v : PyVal)
    (h : d.lookup k = none) : setattr d k v = d ++ [(k, v)] := by
  induction d with
  | nil => rfl
  | cons p rest ih =>
      obtain ⟨pk, pv⟩ := p
      rw [List.lookup_cons] at h
      cases hk : (k == pk) with
      | true => rw [hk] at h; cases h
      | false =>
          rw [hk] at h
          have hne : (pk == k) = false := by
            have : ¬ pk = k := by
              intro he
              subst he
              simp at hk
            exact beq_false_of_ne this
          simp only [setattr, hne, Bool.false_eq_true, if_false,
            List.cons_append, List.cons.injEq, true_and]
          exact ih h

theorem dictEq_length (d1 d2 : List (String × PyVal))
    (h : dictEq d1 d2 = true) : d1.length = d2.length := by
  have := (Bool.and_eq_true _ _).mp h
  exact beq_iff_eq.mp this.1

/-! ## C1 -/

/-- C1: synthesis is idempotent keyed by `(module, name)`: a second
synthesis request under the same key yields the reference-identical
canonical class, and instances built from either request (whose class is
the returned class) are recognized by the canonicalized
`__instancecheck__` against the type obtained from the other request,
independently of the nominal fallback. -/
theorem C1_synthesize_canonical (r0 : Registry) (key : String)
    (hwf : RegistryWF r0) (fb1 fb2 : Bool) :
    (synthesize r0 key).2 = (synthesize (synthesize r0 key).1 key).2 ∧
    instancecheck (synthesize (synthesize r0 key).1 key).1
      (synthesize r0 key).2 (synthesize (synthesize r0 key).1 key).2
      fb1 = true ∧
    instancecheck (synthesize (synthesize r0 key).1 key).1
      (synthesize (synthesize r0 key).1 key).2 (synthesize r0 key).2
      fb2 = true := by
  cases hc : r0.cache.lookup key with
  | some c =>
      have hko : r0.keyOf.lookup c = some key := hwf.1 key c hc
      simp [synthesize, hc, instancecheck, hko]
  | none =>
      simp [synthesize, hc, instancecheck, List.lookup_cons_self]

theorem C1_witness :
    (synthesize Registry.empty "addressbook:Person").2 =
      (synthesize (synthesize Registry.empty "addressbook:Person").1
        "addressbook:Person").2 ∧
    instancecheck
      (synthesize (synthesize Registry.empty "addressbook:Person").1
        "addressbook:Person").1
      (synthesize Registry.empty "addressbook:Person").2
      (synthesize (synthesize Registry.empty "addressbook:Person").1
        "addressbook:Person").2 false = true ∧
    instancecheck
      (synthesize (synthesize Registry.empty "addressbook:Person").1
        "addressbook:Person").1
      (synthesize (synthesize Registry.empty "addressbook:Person").1
        "addressbook:Person").2
      (synthesize Registry.empty "addressbook:Person").2 false = true :=
  C1_synthesize_canonical Registry.empty "addressbook:Person"
    registryWF_empty false false

/-! ## C2 -/

/-- C2 fails on the code: `TPayload.__eq__` compares the full `__dict__`
and `TPayload.__repr__` enumerates the full `__dict__`, so setting an
attribute `"b"` that is not among the declared fields (here `["a"]`)
breaks equality with a previously equal instance and changes the
representation. -/
theorem C2_counterexample :
    "b" ∉ (["a"] : List String) ∧
    TPayload_eq Registry.empty ⟨0, [("a", PyVal.vint 1)]⟩
      ⟨0, [("a", PyVal.vint 1)]⟩ = true ∧
    TPayload_eq Registry.empty ⟨0, [("a", PyVal.vint 1)]⟩
      ⟨0, setattr [("a", PyVal.vint 1)] "b" (PyVal.vint 2)⟩ = false ∧
    TPayload_repr "S" (setattr [("a", PyVal.vint 1)] "b" (PyVal.vint 2)) ≠
      TPayload_repr "S" [("a", PyVal.vint 1)] := by
  refine ⟨by decide, by decide, by decide, by decide⟩

/-- C2 amended: for open-storage instances, equality compares the entire
attribute dictionary and the representation enumerates every set
attribute, so setting an attribute that is not a declared field of the
TypeSpec makes a previously equal instance unequal and appends the new
attribute to the representation items. -/
theorem C2_open_storage_extraneous_state (r : Registry)
    (self other : TPayloadInst) (spec : List String) (k : String) (v : PyVal)
    (heq : TPayload_eq r self other = true)
    (hspec : other.dict.map Prod.fst = spec) (hk : k ∉ spec) :
    TPayload_eq r self ⟨other.cls, setattr other.dict k v⟩ = false ∧
    repr_items (setattr other.dict k v) =
      repr_items other.dict ++ [k ++ "=" ++ reprVal v] := by
  have hfresh : other.dict.lookup k = none :=
    lookup_eq_none_of_not_mem (by rw [hspec]; exact hk)
  have hset : setattr other.dict k v = other.dict ++ [(k, v)] :=
    setattr_fresh _ _ _ hfresh
  constructor
  · have hlen : self.dict.length = other.dict.length :=
      dictEq_length _ _ ((Bool.and_eq_true _ _).mp heq).2
    simp only [TPayload_eq, hset, Bool.and_eq_false_iff]
    right
    simp only [dictEq, List.length_append, List.length_cons,
      List.length_nil, Bool.and_eq_false_iff]
    left
    simp only [beq_eq_false_iff_ne, ne_eq, hlen]
    omega
  · rw [hset]
    simp [repr_items]

theorem C2_amended_witness :
    TPayload_eq Registry.empty ⟨0, [("a", PyVal.vint 1)]⟩
      ⟨0, setattr [("a", PyVal.vint 1)] "extra" (PyVal.vstr "x")⟩ = false ∧
    repr_items (setattr [("a", PyVal.vint 1)] "extra" (PyVal.vstr "x")) =
      repr_items [("a", PyVal.vint 1)] ++
        ["extra" ++ "=" ++ reprVal (PyVal.vstr "x")] :=
  C2_open_storage_extraneous_state Registry.empty ⟨0, [("a", PyVal.vint 1)]⟩
    ⟨0, [("a", PyVal.vint 1)]⟩ ["a"] "extra" (PyVal.vstr "x")
    (by decide) (by decide) (by decide)

/-! ## C3 -/

theorem sentSeqids_const (api : String) (c : TClient) (n : Nat) :
    sentSeqids api c n = List.replicate n c._seqid := by
  induction n with
  | zero => rfl
  | succ n ih => simp [sentSeqids, TClient_send, List.replicate, ih]

/-- C3 fails on the code: `TClient.__init__` sets `self._seqid = 0` and no
method of the class ever changes it, so the second of two calls issued
through one client is sent with sequence id `0`, not a strictly greater
one. -/
theorem C3_counterexample :
    sentSeqids "ping" TClient.init 2 = [0, 0] ∧
    ¬ List.Chain' (fun i j => i < j) (sentSeqids "ping" TClient.init 2) := by
  constructor
  · rfl
  · rw [show sentSeqids "ping" TClient.init 2 = [0, 0] from rfl]
    simp [List.chain'_cons]

/-- C3 amended: the client owns a sequence id that starts at `0` and is
never incremented; every one of the `n` request messages issued through
one client instance is sent with sequence id `0`. -/
theorem C3_seqid_constant_zero (api : String) (n : Nat) :
    sentSeqids api TClient.init n = List.replicate n 0 :=
  sentSeqids_const api TClient.init n

/-! ## C4 and C5: the client receive step -/

theorem firstThrow_eq_none (d : List (String × PyVal)) :
    firstThrow d = none ↔ ∀ p ∈ d, p.1 = "success" ∨ truthy p.2 = false := by
  induction d with
  | nil => simp [firstThrow]
  | cons p rest ih =>
      obtain ⟨k, v⟩ := p
      simp only [firstThrow]
      by_cases hk : k = "success"
      · subst hk
        simp [List.forall_mem_cons, ih]
      · have hkb : (k == "success") = false := beq_false_of_ne hk
        cases hv : truthy v with
        | true => simp [List.forall_mem_cons, hkb, hv, hk]
        | false => simp [List.forall_mem_cons, hkb, hv, ih]

theorem firstThrow_split (pre post : List (String × PyVal)) (k : String)
    (v : PyVal) (hpre : ∀ p ∈ pre, p.1 = "success" ∨ truthy p.2 = false)
    (hk : ¬ k = "success") (hv : truthy v = true) :
    firstThrow (pre ++ (k, v) :: post) = some v := by
  induction pre with
  | nil =>
      simp only [List.nil_append, firstThrow]
      rw [beq_false_of_ne hk]
      simp [hv]
  | cons p rest ih =>
      obtain ⟨pk, pv⟩ := p
      have hp := hpre (pk, pv) (List.mem_cons_self _ _)
      have hcond : (!(pk == "success") && truthy pv) = false := by
        rcases hp with hp | hp
        · subst hp; simp
        · simp [hp]
      simp only [List.cons_append, firstThrow, hcond, Bool.false_eq_true,
        if_false]
      exact ih (fun q hq => hpre q (List.mem_cons_of_mem _ hq))

theorem vnone_of_not_truthy (v : PyVal) (h1 : truthy v = false)
    (h2 : isExcOrNone v = true) : v = PyVal.vnone := by
  cases v <;> simp_all [truthy, isExcOrNone]

theorem successIsSet_eq_false_of_lookup (d : List (String × PyVal))
    (h : d.lookup "success" = some PyVal.vnone) : successIsSet d = false := by
  simp [successIsSet, h]

theorem lookup_success_vnone (d : List (String × PyVal))
    (h1 : hasattr d "success" = true) (h2 : successIsSet d = false) :
    d.lookup "success" = some PyVal.vnone := by
  unfold hasattr at h1
  cases hv : d.lookup "success" with
  | none => rw [hv] at h1; cases h1
  | some v =>
      unfold successIsSet at h2
      rw [hv] at h2
      simp at h2
      rw [h2]

/-- C4: for a non-oneway call (message kind not EXCEPTION), when the
decoded result struct declares a `success` field (the attribute exists)
but neither `success` nor any throws field is set, `_recv` raises
`ApplicationException(MISSING_RESULT)`; and it produces MISSING_RESULT
exactly in that situation.  Hypotheses: non-`success` attributes hold
either `None` or exception instances (as decoding guarantees), and the
instance carries one attribute per declared field. -/
theorem C4_missing_result_iff (mtype wireExcType : Nat)
    (result : ResultStruct)
    (hvals : ∀ p ∈ result.dict, ¬ p.1 = "success" → isExcOrNone p.2 = true)
    (hlen : result.dict.length = result.thrift_spec.length) :
    (TClient_recv mtype wireExcType result =
        RecvOutcome.raisedApp TApplicationException.MISSING_RESULT) ↔
      (¬ mtype = TMessageType.EXCEPTION ∧
       result.dict.lookup "success" = some PyVal.vnone ∧
       ∀ p ∈ result.dict, ¬ p.1 = "success" → p.2 = PyVal.vnone) := by
  unfold TClient_recv
  by_cases hm : mtype = TMessageType.EXCEPTION
  · rw [beq_iff_eq.mpr hm]
    simp [hm]
  · rw [beq_false_of_ne hm]
    simp only [Bool.false_eq_true, if_false]
    cases hs : successIsSet result.dict with
    | true =>
        simp only [if_true]
        constructor
        · intro h; cases h
        · rintro ⟨_, h2, _⟩
          have := successIsSet_eq_false_of_lookup result.dict h2
          rw [this] at hs
          simp at hs
    | false =>
        simp only [Bool.false_eq_true, if_false]
        cases hl : (result.thrift_spec.length == 0) with
        | true =>
            simp only [if_true]
            constructor
            · intro h; cases h
            · rintro ⟨_, h2, _⟩
              have hmem := mem_of_lookup h2
              have : 0 < result.dict.length := List.length_pos.mpr
                (List.ne_nil_of_mem hmem)
              have := beq_iff_eq.mp hl
              omega
        | false =>
            simp only [Bool.false_eq_true, if_false]
            cases hf : firstThrow result.dict with
            | some v =>
                constructor
                · intro h; cases h
                · rintro ⟨_, _, h3⟩
                  have hnone : firstThrow result.dict = none :=
                    (firstThrow_eq_none _).mpr (fun p hp => by
                      by_cases hps : p.1 = "success"
                      · exact Or.inl hps
                      · exact Or.inr (by rw [h3 p hp hps]; rfl))
                  rw [hf] at hnone
                  cases hnone
            | none =>
                cases hh : hasattr result.dict "success" with
                | true =>
                    simp only [if_true]
                    constructor
                    · intro _
                      refine ⟨hm, lookup_success_vnone _ hh hs, ?_⟩
                      intro p hp hps
                      have htr : truthy p.2 = false := by
                        rcases (firstThrow_eq_none _).mp hf p hp with h | h
                        · exact absurd h hps
                        · exact h
                      exact vnone_of_not_truthy _ htr (hvals p hp hps)
                    · intro _; trivial
                | false =>
                    simp only [Bool.false_eq_true, if_false]
                    constructor
                    · intro h; cases h
                    · rintro ⟨_, h2, _⟩
                      unfold hasattr at hh
                      rw [h2] at hh
                      cases hh

theorem C4_witness :
    TClient_recv TMessageType.REPLY 0
      ⟨[(0, "success"), (1, "err")],
       [("success", PyVal.vnone), ("err", PyVal.vnone)]⟩ =
      RecvOutcome.raisedApp TApplicationException.MISSING_RESULT :=
  (C4_missing_result_iff TMessageType.REPLY 0
      ⟨[(0, "success"), (1, "err")],
       [("success", PyVal.vnone), ("err", PyVal.vnone)]⟩
      (by decide) (by decide)).mpr (by decide)

/-- C5: when the decoded result struct's `success` is unset and the
struct has at least one declared field, `_recv` scans the attributes in
declaration (insertion) order and raises the value of the first
non-`success` field that is set; fields after the first set one are never
raised (the conclusion names only the first set value `v`, whatever
`post` holds). -/
theorem C5_first_set_throw_raised (mtype wireExcType : Nat)
    (result : ResultStruct) (pre post : List (String × PyVal)) (k : String)
    (v : PyVal)
    (hm : ¬ mtype = TMessageType.EXCEPTION)
    (hns : successIsSet result.dict = false)
    (hspec : ¬ result.thrift_spec.length = 0)
    (hsplit : result.dict = pre ++ (k, v) :: post)
    (hpre : ∀ p ∈ pre, p.1 = "success" ∨ truthy p.2 = false)
    (hk : ¬ k = "success") (hv : truthy v = true) :
    TClient_recv mtype wireExcType result = RecvOutcome.raisedThrow v := by
  have hf : firstThrow result.dict = some v := by
    rw [hsplit]
    exact firstThrow_split pre post k v hpre hk hv
  unfold TClient_recv
  rw [beq_false_of_ne hm]
  have hlb : (result.thrift_spec.length == 0) = false := by
    exact beq_false_of_ne hspec
  simp [hns, hlb, hf]

theorem C5_witness :
    TClient_recv TMessageType.REPLY 0
      ⟨[(0, "success"), (1, "e1"), (2, "e2")],
       [("success", PyVal.vnone), ("e1", PyVal.vexc "E1" 5),
        ("e2", PyVal.vexc "E2" 6)]⟩ =
      RecvOutcome.raisedThrow (PyVal.vexc "E1" 5) :=
  C5_first_set_throw_raised TMessageType.REPLY 0
    ⟨[(0, "success"), (1, "e1"), (2, "e2")],
     [("success", PyVal.vnone), ("e1", PyVal.vexc "E1" 5),
      ("e2", PyVal.vexc "E2" 6)]⟩
    [("success", PyVal.vnone)] [("e2", PyVal.vexc "E2" 6)] "e1"
    (PyVal.vexc "E1" 5) (by decide) (by decide) (by decide) rfl
    (by decide) (by decide) (by decide)

/-! ## C6 and C7: the server processor -/

/-- The function `sortSpec` really is the ascending-field-id ordering of the spec. -/
theorem sortSpec_sorted (l : List (Nat × String × String)) :
    List.Sorted (fun a b => a.1 ≤ b.1) (sortSpec l) := by
  haveI : IsTotal (Nat × String × String) (fun a b => a.1 ≤ b.1) :=
    ⟨fun a b => Nat.le_total a.1 b.1⟩
  haveI : IsTrans (Nat × String × String) (fun a b => a.1 ≤ b.1) :=
    ⟨fun a b c hab hbc => Nat.le_trans hab hbc⟩
  exact List.sorted_insertionSort _ l

theorem sortSpec_perm (l : List (Nat × String × String)) :
    List.Perm (sortSpec l) l :=
  List.perm_insertionSort _ l

theorem handle_exception_scan_oneway (e : ExcVal) (result : ProcResult)
    (l : List (Nat × String × String)) (r2 : ProcResult)
    (h : handle_exception_scan e result l = some r2) :
    r2.oneway = result.oneway := by
  induction l with
  | nil => cases h
  | cons f rest ih =>
      simp only [handle_exception_scan] at h
      by_cases h1 : (f.2.1 == "success") = true
      · rw [if_pos h1] at h
        exact ih h
      · rw [if_neg h1] at h
        by_cases h2 : e.mro.contains f.2.2 = true
        · rw [if_pos h2] at h
          cases h
          rfl
        · rw [if_neg h2] at h
          exact ih h

theorem handle_exception_oneway (e : ExcVal) (result r2 : ProcResult)
    (h : handle_exception e result = some r2) : r2.oneway = result.oneway :=
  handle_exception_scan_oneway e result _ r2 h

/-- C6: for a oneway method, the client returns right after sending (its
trace is exactly the send trace and contains no read event), and the
processor — whatever the handler does — invokes the handler but performs
no write at all (no reply message). -/
theorem C6_oneway_no_reply (api : String) (seqid : Nat)
    (services : List String) (result : ProcResult)
    (handler : HandlerOutcome)
    (hsvc : services.contains api = true) (hone : result.oneway = true) :
    (TClient_req_trace api seqid true = sendTrace api seqid ∧
      ∀ e ∈ TClient_req_trace api seqid true, isReadEvent e = false) ∧
    (IOEvent.callHandler api ∈
        (TProcessor_process services api seqid result handler).1 ∧
      ∀ e ∈ (TProcessor_process services api seqid result handler).1,
        isWriteEvent e = false) := by
  have htr : (TProcessor_process services api seqid result handler).1 =
      [IOEvent.readMsgBegin, IOEvent.readStruct, IOEvent.readMsgEnd,
       IOEvent.callHandler api] := by
    unfold TProcessor_process
    rw [hsvc]
    simp only [Bool.not_true, Bool.false_eq_true, if_false]
    cases handler with
    | ok v => simp [hone]
    | exn e =>
        cases hhe : handle_exception e result with
        | some r2 =>
            have hov : r2.oneway = true := by
              rw [handle_exception_oneway e result r2 hhe]
              exact hone
            simp [hhe, hov]
        | none => simp [hhe]
  constructor
  · constructor
    · simp [TClient_req_trace]
    · intro e he
      simp [TClient_req_trace, sendTrace] at he
      rcases he with h | h | h | h <;> subst h <;> rfl
  · rw [htr]
    constructor
    · simp
    · intro e he
      simp at he
      rcases he with h | h | h | h <;> subst h <;> rfl

theorem C6_witness :
    (TClient_req_trace "ping" 0 true = sendTrace "ping" 0 ∧
      ∀ e ∈ TClient_req_trace "ping" 0 true, isReadEvent e = false) ∧
    (IOEvent.callHandler "ping" ∈
        (TProcessor_process ["ping"] "ping" 0 ⟨[], true, []⟩
          (HandlerOutcome.ok PyVal.vnone)).1 ∧
      ∀ e ∈ (TProcessor_process ["ping"] "ping" 0 ⟨[], true, []⟩
          (HandlerOutcome.ok PyVal.vnone)).1,
        isWriteEvent e = false) :=
  C6_oneway_no_reply "ping" 0 ["ping"] ⟨[], true, []⟩
    (HandlerOutcome.ok PyVal.vnone) (by decide) (by decide)

/-- C7: a request naming an undeclared method makes the processor skip
the unread struct, consume the message end, and send an EXCEPTION-framed
reply carrying `ApplicationException(UNKNOWN_METHOD)`; no handler is ever
invoked. -/
theorem C7_unknown_method (api : String) (seqid : Nat)
    (services : List String) (result : ProcResult)
    (handler : HandlerOutcome)
    (hsvc : services.contains api = false) :
    TProcessor_process services api seqid result handler =
      ([IOEvent.readMsgBegin, IOEvent.skipStruct, IOEvent.readMsgEnd,
        IOEvent.writeMsgBegin api TMessageType.EXCEPTION seqid,
        IOEvent.writeStruct, IOEvent.writeMsgEnd, IOEvent.flush],
       ProcessOutcome.sentException api
         TApplicationException.UNKNOWN_METHOD seqid) ∧
    ∀ a, IOEvent.callHandler a ∉
        (TProcessor_process services api seqid result handler).1 := by
  have h : TProcessor_process services api seqid result handler =
      ([IOEvent.readMsgBegin, IOEvent.skipStruct, IOEvent.readMsgEnd,
        IOEvent.writeMsgBegin api TMessageType.EXCEPTION seqid,
        IOEvent.writeStruct, IOEvent.writeMsgEnd, IOEvent.flush],
       ProcessOutcome.sentException api
         TApplicationException.UNKNOWN_METHOD seqid) := by
    unfold TProcessor_process
    rw [hsvc]
    simp [sendExcTrace]
  refine ⟨h, ?_⟩
  intro a
  rw [h]
  simp

theorem C7_witness :
    TProcessor_process ["ping"] "nosuch" 7 ⟨[], false, []⟩
        (HandlerOutcome.ok PyVal.vnone) =
      ([IOEvent.readMsgBegin, IOEvent.skipStruct, IOEvent.readMsgEnd,
        IOEvent.writeMsgBegin "nosuch" TMessageType.EXCEPTION 7,
        IOEvent.writeStruct, IOEvent.writeMsgEnd, IOEvent.flush],
       ProcessOutcome.sentException "nosuch"
         TApplicationException.UNKNOWN_METHOD 7) ∧
    ∀ a, IOEvent.callHandler a ∉
        (TProcessor_process ["ping"] "nosuch" 7 ⟨[], false, []⟩
          (HandlerOutcome.ok PyVal.vnone)).1 :=
  C7_unknown_method "nosuch" 7 ["ping"] ⟨[], false, []⟩
    (HandlerOutcome.ok PyVal.vnone) (by decide)

/-! ## C8: mapping handler exceptions onto declared throws fields -/

theorem handle_exception_scan_eq_none (e : ExcVal) (result : ProcResult)
    (l : List (Nat × String × String)) :
    handle_exception_scan e result l = none ↔
      ∀ f ∈ l, f.2.1 = "success" ∨ e.mro.contains f.2.2 = false := by
  induction l with
  | nil => simp [handle_exception_scan]
  | cons f rest ih =>
      simp only [handle_exception_scan]
      by_cases h1 : (f.2.1 == "success") = true
      · rw [if_pos h1]
        have he : f.2.1 = "success" := beq_iff_eq.mp h1
        simp [List.forall_mem_cons, he, ih]
      · rw [if_neg h1]
        have h1n : ¬ f.2.1 = "success" := fun he => h1 (beq_iff_eq.mpr he)
        by_cases h2 : e.mro.contains f.2.2 = true
        · rw [if_pos h2]
          constructor
          · intro h; cases h
          · intro h
            exfalso
            rcases (List.forall_mem_cons.mp h).1 with hx | hx
            · exact h1n hx
            · rw [h2] at hx
              exact Bool.noConfusion hx
        · rw [if_neg h2]
          have h2f : e.mro.contains f.2.2 = false := by
            cases hc : e.mro.contains f.2.2
            · rfl
            · exact absurd hc h2
          rw [ih]
          constructor
          · intro h
            rw [List.forall_mem_cons]
            exact ⟨Or.inr h2f, h⟩
          · intro h
            exact (List.forall_mem_cons.mp h).2

theorem handle_exception_scan_split (e : ExcVal) (result : ProcResult)
    (pre post : List (Nat × String × String)) (f : Nat × String × String)
    (hpre : ∀ g ∈ pre, g.2.1 = "success" ∨ e.mro.contains g.2.2 = false)
    (hf1 : ¬ f.2.1 = "success") (hf2 : e.mro.contains f.2.2 = true) :
    handle_exception_scan e result (pre ++ f :: post) =
      some { result with
             dict := setattr result.dict f.2.1
               (PyVal.vexc e.cls e.objId) } := by
  induction pre with
  | nil =>
      simp only [List.nil_append, handle_exception_scan]
      rw [if_neg (fun h => hf1 (beq_iff_eq.mp h)), if_pos hf2]
  | cons g rest ih =>
      have hg := hpre g (List.mem_cons_self _ _)
      have htail : ∀ q ∈ rest, q.2.1 = "success" ∨ e.mro.contains q.2.2 = false :=
        fun q hq => hpre q (List.mem_cons_of_mem _ hq)
      simp only [List.cons_append, handle_exception_scan]
      rcases hg with hg | hg
      · rw [if_pos (beq_iff_eq.mpr hg)]
        exact ih htail
      · by_cases h1 : (g.2.1 == "success") = true
        · rw [if_pos h1]
          exact ih htail
        · rw [if_neg h1, if_neg (by rw [hg]; exact Bool.false_ne_true)]
          exact ih htail

/-- C8: on a handler exception the processor scans the result spec's
non-`success` fields in ascending field-id order and sets the first field
whose declared exception class matches the raised exception
(`isinstance`); when no declared field matches, `handle_exception`
re-raises (returns `none`, leaving the result untouched) and the
exception propagates out of `process` uncaught, with no reply written. -/
theorem C8_handler_exception_mapping (e : ExcVal) (result : ProcResult) :
    (handle_exception e result = none ↔
      ∀ f ∈ sortSpec result.thrift_spec,
        f.2.1 = "success" ∨ e.mro.contains f.2.2 = false) ∧
    (∀ pre f post,
      sortSpec result.thrift_spec = pre ++ f :: post →
      (∀ g ∈ pre, g.2.1 = "success" ∨ e.mro.contains g.2.2 = false) →
      ¬ f.2.1 = "success" → e.mro.contains f.2.2 = true →
      handle_exception e result =
        some { result with
               dict := setattr result.dict f.2.1
                 (PyVal.vexc e.cls e.objId) }) ∧
    (∀ services api seqid, (services : List String).contains api = true →
      handle_exception e result = none →
      TProcessor_process services api seqid result (HandlerOutcome.exn e) =
        ([IOEvent.readMsgBegin, IOEvent.readStruct, IOEvent.readMsgEnd,
          IOEvent.callHandler api], ProcessOutcome.uncaught e)) := by
  refine ⟨handle_exception_scan_eq_none e result _, ?_, ?_⟩
  · intro pre f post hsort hpre hf1 hf2
    unfold handle_exception
    rw [hsort]
    exact handle_exception_scan_split e result pre post f hpre hf1 hf2
  · intro services api seqid hsvc hnone
    unfold TProcessor_process
    rw [hsvc]
    simp [hnone]

theorem C8_witness :
    handle_exception ⟨"E", ["E", "TException"], 7⟩
      ⟨[(0, "success", ""), (1, "err", "E")], false,
       [("success", PyVal.vnone), ("err", PyVal.vnone)]⟩ =
      some ⟨[(0, "success", ""), (1, "err", "E")], false,
        setattr [("success", PyVal.vnone), ("err", PyVal.vnone)] "err"
          (PyVal.vexc "E" 7)⟩ :=
  (C8_handler_exception_mapping ⟨"E", ["E", "TException"], 7⟩
      ⟨[(0, "success", ""), (1, "err", "E")], false,
       [("success", PyVal.vnone), ("err", PyVal.vnone)]⟩).2.1
    [(0, "success", "")] (1, "err", "E") [] (by decide) (by decide)
    (by decide) (by decide)

/-! ## C9: the multiplexed processor rejects malformed requests -/

/-- C9: if the incoming message type is neither CALL nor ONEWAY, or the
method name does not contain the separator, `TMultiplexedProcessor.
process_in` raises a `TException` to its caller after only reading the
message header: nothing is written to the wire and no registered
processor is dispatched to. -/
theorem C9_mux_protocol_errors (processors : List String) (api : String)
    (type seqid : Nat)
    (h : (¬ type = TMessageType.CALL ∧ ¬ type = TMessageType.ONEWAY) ∨
      containsSep api = false) :
    (∃ m, TMultiplexedProcessor_process_in processors api type seqid =
      ([IOEvent.readMsgBegin], MuxOutcome.raised m)) ∧
    (∀ e ∈ (TMultiplexedProcessor_process_in processors api type seqid).1,
      isWriteEvent e = false) ∧
    (∀ s a q,
      (TMultiplexedProcessor_process_in processors api type seqid).2 ≠
        MuxOutcome.dispatched s a q) := by
  have key : ∃ m,
      TMultiplexedProcessor_process_in processors api type seqid =
        ([IOEvent.readMsgBegin], MuxOutcome.raised m) := by
    unfold TMultiplexedProcessor_process_in
    cases ht : (type == TMessageType.CALL || type == TMessageType.ONEWAY) with
    | false =>
        simp only [ht, Bool.not_false, if_true]
        exact ⟨_, rfl⟩
    | true =>
        have hsep : containsSep api = false := by
          rcases h with ⟨h1, h2⟩ | h2
          · exfalso
            simp only [Bool.or_eq_true, beq_iff_eq] at ht
            rcases ht with hx | hx
            · exact h1 hx
            · exact h2 hx
          · exact h2
        simp only [ht, Bool.not_true, Bool.false_eq_true, if_false, hsep,
          Bool.not_false, if_true]
        exact ⟨_, rfl⟩
  obtain ⟨m, hm⟩ := key
  refine ⟨⟨m, hm⟩, ?_, ?_⟩
  · rw [hm]
    intro e he
    simp at he
    subst he
    rfl
  · intro s a q
    rw [hm]
    simp

theorem C9_witness :
    (∃ m, TMultiplexedProcessor_process_in ["Addr"] "getPerson"
        TMessageType.CALL 0 =
      ([IOEvent.readMsgBegin], MuxOutcome.raised m)) ∧
    (∀ e ∈ (TMultiplexedProcessor_process_in ["Addr"] "getPerson"
        TMessageType.CALL 0).1,
      isWriteEvent e = false) ∧
    (∀ s a q,
      (TMultiplexedProcessor_process_in ["Addr"] "getPerson"
          TMessageType.CALL 0).2 ≠
        MuxOutcome.dispatched s a q) :=
  C9_mux_protocol_errors ["Addr"] "getPerson" TMessageType.CALL 0
    (Or.inr (by decide))

/-! ## C10: exception payloads compare and hash by identity -/

/-- C10: `TException.__eq__` and `__hash__` are identity based (this is
inherited by `TApplicationException` and every declared exception class):
an instance equals itself, its hash is its identity, and two distinct
instances are unequal even when all their declared fields hold equal
values. -/
theorem C10_texception_identity (a b : TExceptionInst)
    (hfields : a.dict = b.dict) (hid : ¬ a.objId = b.objId) :
    TException_eq a a = true ∧
    TException_hash a = a.objId ∧
    TException_eq a b = false ∧
    TException_eq b a = false := by
  refine ⟨by simp [TException_eq], rfl, ?_, ?_⟩
  · simp only [TException_eq, beq_eq_false_iff_ne, ne_eq]
    exact hid
  · simp only [TException_eq, beq_eq_false_iff_ne, ne_eq]
    exact fun he => hid he.symm

theorem C10_witness :
    TException_eq
        (TApplicationException_init 1 TApplicationException.INTERNAL_ERROR
          PyVal.vnone)
        (TApplicationException_init 1 TApplicationException.INTERNAL_ERROR
          PyVal.vnone) = true ∧
    TException_hash
        (TApplicationException_init 1 TApplicationException.INTERNAL_ERROR
          PyVal.vnone) =
      (TApplicationException_init 1 TApplicationException.INTERNAL_ERROR
        PyVal.vnone).objId ∧
    TException_eq
        (TApplicationException_init 1 TApplicationException.INTERNAL_ERROR
          PyVal.vnone)
        (TApplicationException_init 2 TApplicationException.INTERNAL_ERROR
          PyVal.vnone) = false ∧
    TException_eq
        (TApplicationException_init 2 TApplicationException.INTERNAL_ERROR
          PyVal.vnone)
        (TApplicationException_init 1 TApplicationException.INTERNAL_ERROR
          PyVal.vnone) = false :=
  C10_texception_identity
    (TApplicationException_init 1 TApplicationException.INTERNAL_ERROR
      PyVal.vnone)
    (TApplicationException_init 2 TApplicationException.INTERNAL_ERROR
      PyVal.vnone) rfl (by decide)

end ThriftPy
